import Mathlib

/-!
# SouthBridge ACP Client — verification of the session engine

Shallow embedding of the ACP client (`src/client.ts`, `src/types.ts`,
`src/session-manager.ts`, `src/transport.ts`).  The client's mutable
instance fields become an explicit `Client` record threaded through the
operations; the transport, the durable session store and the executed-tool
log are carried in a `World` record.  Tool collaborators (file read/write,
directory listing, shell) are external per the architecture and are
modelled as parameters of type `ToolEnv`.
-/

namespace ACP

/-- JSON values as produced/consumed by `JSON.stringify` / `JSON.parse`. -/
inductive Json where
  | null : Json
  | bool (b : Bool) : Json
  | num (n : Int) : Json
  | str (s : String) : Json
  | arr (items : List Json) : Json
  | obj (fields : List (String × Json)) : Json

/-- Field lookup in a JSON object's field list (first match wins). -/
def getField (fields : List (String × Json)) (key : String) : Option Json :=
  match fields with
  | [] => none
  | (k, v) :: rest => if k = key then some v else getField rest key

/-- Lookup of a string-valued field of a JSON object. -/
def Json.getStrField (j : Json) (key : String) : Option String :=
  match j with
  | .obj fields =>
      match getField fields key with
      | some (.str s) => some s
      | _ => none
  | _ => none

/-- History entry kinds, the `type` field of `SessionData.history`
entries in `session-manager.ts`. -/
inductive EntryType where
  | prompt : EntryType
  | tool_call : EntryType
  | tool_result : EntryType
deriving DecidableEq

/-- The wire spelling of an entry type. -/
def EntryType.toStr : EntryType → String
  | .prompt => "prompt"
  | .tool_call => "tool_call"
  | .tool_result => "tool_result"

/-- Parse an entry-type string, the inverse of `EntryType.toStr`. -/
def EntryType.ofStr : String → Option EntryType
  | "prompt" => some .prompt
  | "tool_call" => some .tool_call
  | "tool_result" => some .tool_result
  | _ => none

/-- One history entry: `{type, data, timestamp}` (`session-manager.ts`).
The `data` payload is schemaless (`any`) and is kept as a JSON value. -/
structure HistoryEntry where
  type : EntryType
  data : Json
  timestamp : String

/-- Record `SessionData` from `session-manager.ts`: the full persisted record. -/
structure SessionData where
  sessionId : String
  model : String
  workspaceDir : String
  timestamp : String
  history : List HistoryEntry

/-- JSON encoding of a history entry, as `JSON.stringify` lays it out. -/
def encodeEntry (e : HistoryEntry) : Json :=
  .obj [("type", .str e.type.toStr), ("data", e.data),
        ("timestamp", .str e.timestamp)]

/-- Decoding of a single history entry from JSON. -/
def decodeEntry (j : Json) : Option HistoryEntry :=
  match j with
  | .obj fields =>
      match getField fields "type", getField fields "data",
            getField fields "timestamp" with
      | some (.str t), some d, some (.str ts) =>
          match EntryType.ofStr t with
          | some ty => some { type := ty, data := d, timestamp := ts }
          | none => none
      | _, _, _ => none
  | _ => none

/-- Decoding of a list of history entries. -/
def decodeEntryList : List Json → Option (List HistoryEntry)
  | [] => some []
  | j :: rest =>
      match decodeEntry j, decodeEntryList rest with
      | some e, some es => some (e :: es)
      | _, _ => none

/-- JSON encoding of the full session record (`saveSession` writes
`JSON.stringify(data)`). -/
def encodeSession (d : SessionData) : Json :=
  .obj [("sessionId", .str d.sessionId), ("model", .str d.model),
        ("workspaceDir", .str d.workspaceDir),
        ("timestamp", .str d.timestamp),
        ("history", .arr (d.history.map encodeEntry))]

/-- Decoding of a full session record (`loadSession` does `JSON.parse`
and the result is used at the `SessionData` schema). -/
def decodeSession (j : Json) : Option SessionData :=
  match j with
  | .obj fields =>
      match getField fields "sessionId", getField fields "model",
            getField fields "workspaceDir", getField fields "timestamp",
            getField fields "history" with
      | some (.str sid), some (.str m), some (.str wd), some (.str ts),
        some (.arr hs) =>
          match decodeEntryList hs with
          | some h =>
              some { sessionId := sid, model := m, workspaceDir := wd,
                     timestamp := ts, history := h }
          | none => none
      | _, _, _, _, _ => none
  | _ => none

/-- The durable session store (directory `.acp-sessions/`): a map from
session id to the JSON text saved for it, modelled as parsed JSON. -/
def Store : Type := String → Option Json

/-- The empty store: no session file exists. -/
def Store.empty : Store := fun _ => none

/-- Function `saveSession` (`session-manager.ts:80-90`): full-overwrite upsert of
the serialized record under the session id. -/
def saveSession (sessionId : String) (d : SessionData) (st : Store) : Store :=
  fun k => if k = sessionId then some (encodeSession d) else st k

/-- Function `loadSession` (`session-manager.ts:97-109`): `null` when no file
exists, otherwise the parsed record. -/
def loadSession (sessionId : String) (st : Store) : Option SessionData :=
  match st sessionId with
  | none => none
  | some j => decodeSession j

/-- JSON-RPC ids: the client allocates numeric ids for its own requests
(`this.requestId++`), while peer requests may carry string ids which are
echoed back unmodified (`msg.id as string`). -/
inductive RpcId where
  | num (n : Nat) : RpcId
  | str (s : String) : RpcId
deriving DecidableEq

/-- JSON-RPC 2.0 error object (`types.ts`). -/
structure RpcError where
  code : Int
  message : String
deriving DecidableEq

/-- JSON-RPC 2.0 message (`types.ts`): the `jsonrpc:"2.0"` constant field
is left implicit; optional fields are options, absent = `none`. -/
structure Msg where
  id : RpcId
  method : Option String := none
  params : Option Json := none
  result : Option Json := none
  error : Option RpcError := none

/-- Directory entry in a `listDirectory` result (`types.ts`). -/
structure DirEntry where
  name : String
  isDirectory : Bool

/-- Record `ToolResult` (`types.ts`): every field optional. -/
structure ToolResult where
  success : Option Bool := none
  content : Option String := none
  entries : Option (List DirEntry) := none
  error : Option String := none
  exitCode : Option Int := none
  stdout : Option String := none
  stderr : Option String := none
  path : Option String := none

/-- Table `TOOL_METHODS.WRITE_FILE` (`types.ts:489-494`): accepted spellings per tool. -/
def TOOL_METHODS_WRITE_FILE : List String :=
  ["writeTextFile", "fs/writeTextFile", "fs.writeTextFile"]

/-- Table `TOOL_METHODS.READ_FILE`. -/
def TOOL_METHODS_READ_FILE : List String :=
  ["readTextFile", "fs/readTextFile", "fs.readTextFile"]

/-- Table `TOOL_METHODS.LIST_DIRECTORY`. -/
def TOOL_METHODS_LIST_DIRECTORY : List String :=
  ["listDirectory", "fs/listDirectory", "fs.listDirectory"]

/-- Table `TOOL_METHODS.CREATE_TERMINAL`. -/
def TOOL_METHODS_CREATE_TERMINAL : List String :=
  ["createTerminal", "terminal/create", "terminal.create"]

/-- Function `matchesTool` (`types.ts:499-501`): membership of the method name in
the tool's accepted spellings. -/
def matchesTool (method : String) (toolMethods : List String) : Bool :=
  toolMethods.contains method

/-- The mutable fields of `CodingAgentClient` (`client.ts:17-25`). -/
structure Client where
  sessionId : Option String
  requestId : Nat
  writeQueue : List Msg
  isWriting : Bool
  model : String
  workspaceDir : String
  history : List HistoryEntry
  autoSave : Bool

/-- The constructor (`client.ts:33-40`): optional model defaults to the
fixed model string; the workspace defaults to the process cwd, passed in
here since the embedding has no ambient process. -/
def mkClient (model? : Option String) (cwd : String)
    (workspaceDir? : Option String) : Client :=
  { sessionId := none, requestId := 0, writeQueue := [], isWriting := false,
    model := model?.getD "claude-3-5-sonnet-20241022",
    workspaceDir := workspaceDir?.getD cwd,
    history := [], autoSave := true }

/-- The client plus its observable surroundings: the durable store, the
ordered list of messages the transport has received (`sent`), and the log
of tool executions that reached a collaborator (`executed`). -/
structure World where
  client : Client
  store : Store
  sent : List Msg
  executed : List (String × Json)

/-- Messages handed to the outbound serializer, in order: those already
written to the transport followed by those still queued. -/
def World.emitted (w : World) : List Msg :=
  w.sent ++ w.client.writeQueue

/-- External tool collaborators (`tools/fs.ts`, `tools/shell.ts`) and the
operator's approval decision, abstracted at their interface boundary.
Each collaborator maps the tool parameters to a `ToolResult` and never
throws past this boundary. -/
structure ToolEnv where
  approved : Bool
  writeFile : Json → ToolResult
  readFile : Json → ToolResult
  listDir : Json → ToolResult
  runShell : Json → ToolResult

/-- Function `processWriteQueue` (`client.ts:276-293`): a no-op while a drain is
already in progress (`isWriting`), otherwise drains the whole queue to
the transport in FIFO order.  The composed transport's `write` catches
its own errors (`transport.ts:38-53`), so a drained message always
reaches `sent`.  (The fine-grained interleaving of drains and enqueues
is modelled separately by `wqStep` below.) -/
def processWriteQueue (w : World) : World :=
  if w.client.isWriting then w
  else { w with client := { w.client with writeQueue := [] },
                sent := w.sent ++ w.client.writeQueue }

/-- Function `sendRPC` (`client.ts:301-313`): allocates the next numeric request
id, enqueues the request and drains; always resolves to `null` (none) —
responses arrive over SSE and are not routed back to this caller. -/
def sendRPC (method : String) (params : Json) (w : World) :
    World × Option Json :=
  let msg : Msg := { id := .num w.client.requestId, method := some method,
                     params := some params }
  let w := { w with client := { w.client with
               requestId := w.client.requestId + 1,
               writeQueue := w.client.writeQueue ++ [msg] } }
  (processWriteQueue w, none)

/-- Function `sendRPCResponse` (`client.ts:321-334`): builds a response carrying
the peer's id unmodified; with an error the `result` field is absent,
otherwise the `result` field carries the payload. -/
def responseMsg (rid : RpcId) (result : Json) (err : Option RpcError) : Msg :=
  match err with
  | some e => { id := rid, error := some e }
  | none => { id := rid, result := some result }

/-- Enqueue-and-drain part of `sendRPCResponse`. -/
def sendRPCResponse (rid : RpcId) (result : Json) (err : Option RpcError)
    (w : World) : World :=
  processWriteQueue
    { w with client := { w.client with
        writeQueue := w.client.writeQueue ++ [responseMsg rid result err] } }

/-- Appending a history entry (`this.history.push`). -/
def pushHistory (e : HistoryEntry) (w : World) : World :=
  { w with client := { w.client with history := w.client.history ++ [e] } }

/-- Function `persistSession` (`client.ts:383-395`): no-op without auto-save or a
session id, otherwise a full-overwrite save of the current state. -/
def persistSession (now : String) (w : World) : World :=
  match w.client.sessionId with
  | none => w
  | some sid =>
      if w.client.autoSave then
        let d : SessionData :=
          { sessionId := sid, model := w.client.model,
            workspaceDir := w.client.workspaceDir, timestamp := now,
            history := w.client.history }
        { w with store := saveSession sid d w.store }
      else w

/-- The JSON payload of the `tool_call` history entry pushed at receipt
(`client.ts:141-145`). -/
def toolCallData (toolName : String) (params : Json) : Json :=
  .obj [("tool", .str toolName), ("params", params)]

/-- The JSON payload of the `tool_result` history entry pushed after a
successful file write (`client.ts:178-182`). -/
def toolResultData (toolName : String) : Json :=
  .obj [("tool", .str toolName),
        ("result", .obj [("success", .bool true)])]

/-- Records that a collaborator was actually invoked. -/
def execTool (toolName : String) (params : Json) (w : World) : World :=
  { w with executed := w.executed ++ [(toolName, params)] }

/-- Option-to-JSON helpers for response payload fields. -/
def jsonOfStr? (s : Option String) : Json :=
  match s with
  | some s => .str s
  | none => .null

/-- Directory entries as the JSON payload of a `listDirectory` result. -/
def jsonOfEntries? (es : Option (List DirEntry)) : Json :=
  match es with
  | some es =>
      .arr (es.map fun e =>
        .obj [("name", .str e.name), ("isDirectory", .bool e.isDirectory)])
  | none => .null

/-- Exit-code field of a terminal result. -/
def jsonOfInt? (n : Option Int) : Json :=
  match n with
  | some n => .num n
  | none => .null

/-- The body of the `try { switch ... } catch` in `handleToolCall`
(`client.ts:170-238`): executes the approved tool and emits exactly one
response; a collaborator error string or an unknown tool name throws and
is converted by the catch into a `-32603` error response. -/
def executeApprovedTool (env : ToolEnv) (toolName : String) (rid : RpcId)
    (params : Json) (now : String) (w : World) : World :=
  if toolName = "writeTextFile" then
    let w := execTool toolName params w
    let result := env.writeFile params
    match result.error with
    | some e => sendRPCResponse rid .null (some ⟨-32603, e⟩) w
    | none =>
        let w := pushHistory
          { type := .tool_result, data := toolResultData toolName,
            timestamp := now } w
        sendRPCResponse rid (.obj []) none w
  else if toolName = "readTextFile" then
    let w := execTool toolName params w
    let result := env.readFile params
    match result.error with
    | some e => sendRPCResponse rid .null (some ⟨-32603, e⟩) w
    | none =>
        sendRPCResponse rid (.obj [("content", jsonOfStr? result.content)])
          none w
  else if toolName = "listDirectory" then
    let w := execTool toolName params w
    let result := env.listDir params
    match result.error with
    | some e => sendRPCResponse rid .null (some ⟨-32603, e⟩) w
    | none =>
        sendRPCResponse rid (.obj [("entries", jsonOfEntries? result.entries)])
          none w
  else if toolName = "createTerminal" then
    let w := execTool toolName params w
    let result := env.runShell params
    sendRPCResponse rid
      (.obj [("id", .str "terminal-1"), ("exitCode", jsonOfInt? result.exitCode),
             ("stdout", jsonOfStr? result.stdout),
             ("stderr", jsonOfStr? result.stderr)]) none w
  else
    sendRPCResponse rid .null
      (some ⟨-32603, "Unknown tool: " ++ toolName⟩) w

/-- Function `handleToolCall` (`client.ts:124-242`): pushes the `tool_call` history
entry before the approval wait; on rejection emits the `-32000` error
response and returns early (before the persist); on approval executes the
tool, emits exactly one response, and persists. -/
def handleToolCall (env : ToolEnv) (toolName : String) (rid : RpcId)
    (params : Json) (now : String) (w : World) : World :=
  let w := pushHistory
    { type := .tool_call, data := toolCallData toolName params,
      timestamp := now } w
  if !env.approved then
    sendRPCResponse rid .null (some ⟨-32000, "User rejected tool call"⟩) w
  else
    persistSession now (executeApprovedTool env toolName rid params now w)

/-- Function `handleMessage` (`client.ts:99-116`): messages without a method are
only logged; tool methods route through `matchesTool` to `handleToolCall`
with the peer id echoed as-is and missing params defaulted to `{}`;
unrecognized methods are ignored. -/
def handleMessage (env : ToolEnv) (msg : Msg) (now : String) (w : World) :
    World :=
  match msg.method with
  | none => w
  | some m =>
      let params := msg.params.getD (.obj [])
      if matchesTool m TOOL_METHODS_WRITE_FILE then
        handleToolCall env "writeTextFile" msg.id params now w
      else if matchesTool m TOOL_METHODS_READ_FILE then
        handleToolCall env "readTextFile" msg.id params now w
      else if matchesTool m TOOL_METHODS_LIST_DIRECTORY then
        handleToolCall env "listDirectory" msg.id params now w
      else if matchesTool m TOOL_METHODS_CREATE_TERMINAL then
        handleToolCall env "createTerminal" msg.id params now w
      else w

/-- The `session/prompt` request body (`client.ts:263-268`). -/
def promptParams (message : String) : Json :=
  .obj [("prompt", .obj [("role", .str "user"),
        ("content", .arr [.obj [("type", .str "text"),
                                ("text", .str message)]])])]

/-- Function `sendPrompt` (`client.ts:249-271`): with no session yet, performs the
`session/new` round-trip and adopts `sessionResp?.sessionId` with the
`session-${Date.now()}` fallback (`Date.now()` passed as `nowMs`); then
appends the `Prompt` history entry, sends `session/prompt`, persists. -/
def sendPrompt (message : String) (now : String) (nowMs : Nat) (w : World) :
    World :=
  let w1 :=
    match w.client.sessionId with
    | some _ => w
    | none =>
        let r := sendRPC "session/new" (.obj []) w
        let sid := (r.2.bind (fun j => j.getStrField "sessionId")
                   ).getD ("session-" ++ toString nowMs)
        { r.1 with client := { r.1.client with sessionId := some sid } }
  let w2 := pushHistory
    { type := .prompt, data := .str message, timestamp := now } w1
  persistSession now (sendRPC "session/prompt" (promptParams message) w2).1

/-- Function `resumeSession` (`client.ts:402-422`): load by id; `false` and no
mutation when the store has nothing, wholesale replacement of the
in-memory state on success. -/
def resumeSession (sid : String) (w : World) : Bool × World :=
  match loadSession sid w.store with
  | none => (false, w)
  | some d =>
      (true, { w with client := { w.client with
                 sessionId := some d.sessionId, model := d.model,
                 workspaceDir := d.workspaceDir, history := d.history } })

/-- Iterated `sendRPC` calls, for reasoning about the id counter. -/
def runSendRPCs (calls : List (String × Json)) (w : World) : World :=
  match calls with
  | [] => w
  | (m, p) :: rest => runSendRPCs rest (sendRPC m p w).1

/-!
## Fine-grained write-queue model

Function `processWriteQueue` above treats a drain as one atomic flush,
which is how it behaves when no drain is in progress.  The concurrency
claim about the serializer needs the finer interleaving of
`client.ts:276-293`: an `enqueue` (array push) can land while a drain is
suspended inside `await writer.write(msg)`, and a second
`processWriteQueue` call during a drain returns immediately.  The
labelled step function below models exactly those atomic events. -/

/-- State of the outbound serializer: the pending queue, the `isWriting`
flag, and the list of messages the transport has received, in order. -/
structure WQState (α : Type) where
  queue : List α
  isWriting : Bool
  sent : List α
deriving DecidableEq

/-- Initial serializer state. -/
def wqInit {α : Type} : WQState α :=
  { queue := [], isWriting := false, sent := [] }

/-- Atomic events of the serializer: an enqueue (`writeQueue.push`), a
`processWriteQueue` call finding the flag clear (`drainEnter`) or set
(`drainBusy`, the immediate return), one loop iteration writing the head
of the queue to the transport (`drainWrite`), and loop exit clearing the
flag when the queue is empty (`drainExit`). -/
inductive WQLabel (α : Type) where
  | enqueue (m : α) : WQLabel α
  | drainEnter : WQLabel α
  | drainBusy : WQLabel α
  | drainWrite : WQLabel α
  | drainExit : WQLabel α

/-- One atomic step of the serializer; `none` when the event is not
enabled in the given state. -/
def wqStep {α : Type} (l : WQLabel α) (s : WQState α) : Option (WQState α) :=
  match l with
  | .enqueue m => some { s with queue := s.queue ++ [m] }
  | .drainEnter =>
      if s.isWriting then none else some { s with isWriting := true }
  | .drainBusy => if s.isWriting then some s else none
  | .drainWrite =>
      match s.queue with
      | [] => none
      | m :: rest =>
          if s.isWriting then
            some { queue := rest, isWriting := true, sent := s.sent ++ [m] }
          else none
  | .drainExit =>
      if s.isWriting && s.queue.isEmpty then some { s with isWriting := false }
      else none

/-- Run of a trace of serializer events. -/
def wqRun {α : Type} (tr : List (WQLabel α)) (s : WQState α) :
    Option (WQState α) :=
  match tr with
  | [] => some s
  | l :: rest =>
      match wqStep l s with
      | some s2 => wqRun rest s2
      | none => none

/-- Messages enqueued along a trace, in call order. -/
def enqueuedOf {α : Type} (tr : List (WQLabel α)) : List α :=
  tr.filterMap fun l =>
    match l with
    | .enqueue m => some m
    | _ => none

/-!
## Concrete inputs used by the scenario claims -/

/-- A world holding a freshly constructed client over an empty store,
with nothing sent or executed yet. -/
def freshWorld (m? : Option String) (cwd : String) (wd? : Option String) :
    World :=
  { client := mkClient m? cwd wd?, store := Store.empty, sent := [],
    executed := [] }

/-- A fresh world: client constructed with defaults over workspace
`/ws`, empty store, nothing sent or executed. -/
def w0 : World := freshWorld none "/ws" none

/-- A tool environment whose operator approves and whose collaborators
succeed, matching the success shapes of `tools/fs.ts`. -/
def envApproveOk : ToolEnv :=
  { approved := true,
    writeFile := fun _ => { success := some true, path := some "a.txt" },
    readFile := fun _ => { content := some "hi" },
    listDir := fun _ => { entries := some [] },
    runShell := fun _ =>
      { exitCode := some 0, stdout := some "", stderr := some "" } }

/-- A tool environment whose operator rejects the call. -/
def envDeny : ToolEnv :=
  { approved := false,
    writeFile := fun _ => {}, readFile := fun _ => {},
    listDir := fun _ => {}, runShell := fun _ => {} }

/-- The C2 scenario: one prompt (`Date.now()` = 42, so the adopted
session id is `session-42`), then an approved, successful
`writeTextFile` tool call arriving as a peer request. -/
def scenarioFinal : World :=
  let w1 := sendPrompt "hello" "t1" 42 w0
  handleMessage envApproveOk
    { id := .str "req-1", method := some "writeTextFile",
      params := some (.obj [("path", .str "a.txt"), ("content", .str "hi")]) }
    "t2" w1

theorem decodeEntry_encodeEntry (e : HistoryEntry) :
    decodeEntry (encodeEntry e) = some e := by
  cases e with
  | mk ty d ts => cases ty <;> rfl

theorem decodeEntryList_map_encodeEntry (hs : List HistoryEntry) :
    decodeEntryList (hs.map encodeEntry) = some hs := by
  induction hs with
  | nil => rfl
  | cons e rest ih =>
      simp [List.map, decodeEntryList, decodeEntry_encodeEntry, ih]

theorem decodeSession_encodeSession (d : SessionData) :
    decodeSession (encodeSession d) = some d := by
  cases d with
  | mk sid m wd ts h =>
      simp [encodeSession, decodeSession, getField,
            decodeEntryList_map_encodeEntry]

theorem load_after_save (sid : String) (d : SessionData) (st : Store) :
    loadSession sid (saveSession sid d st) = some d := by
  simp [loadSession, saveSession, decodeSession_encodeSession]

theorem emitted_processWriteQueue (w : World) :
    (processWriteQueue w).emitted = w.emitted := by
  by_cases h : w.client.isWriting <;>
    simp [processWriteQueue, World.emitted, h]

theorem processWriteQueue_store (w : World) :
    (processWriteQueue w).store = w.store := by
  by_cases h : w.client.isWriting <;> simp [processWriteQueue, h]

theorem processWriteQueue_history (w : World) :
    (processWriteQueue w).client.history = w.client.history := by
  by_cases h : w.client.isWriting <;> simp [processWriteQueue, h]

theorem processWriteQueue_executed (w : World) :
    (processWriteQueue w).executed = w.executed := by
  by_cases h : w.client.isWriting <;> simp [processWriteQueue, h]

theorem processWriteQueue_sessionId (w : World) :
    (processWriteQueue w).client.sessionId = w.client.sessionId := by
  by_cases h : w.client.isWriting <;> simp [processWriteQueue, h]

theorem processWriteQueue_requestId (w : World) :
    (processWriteQueue w).client.requestId = w.client.requestId := by
  by_cases h : w.client.isWriting <;> simp [processWriteQueue, h]

theorem emitted_sendRPCResponse (rid : RpcId) (res : Json)
    (err : Option RpcError) (w : World) :
    (sendRPCResponse rid res err w).emitted
      = w.emitted ++ [responseMsg rid res err] := by
  unfold sendRPCResponse
  rw [emitted_processWriteQueue]
  simp [World.emitted]

theorem sendRPCResponse_store (rid : RpcId) (res : Json)
    (err : Option RpcError) (w : World) :
    (sendRPCResponse rid res err w).store = w.store := by
  unfold sendRPCResponse
  rw [processWriteQueue_store]

theorem sendRPCResponse_history (rid : RpcId) (res : Json)
    (err : Option RpcError) (w : World) :
    (sendRPCResponse rid res err w).client.history = w.client.history := by
  unfold sendRPCResponse
  rw [processWriteQueue_history]

theorem sendRPCResponse_executed (rid : RpcId) (res : Json)
    (err : Option RpcError) (w : World) :
    (sendRPCResponse rid res err w).executed = w.executed := by
  unfold sendRPCResponse
  rw [processWriteQueue_executed]

theorem emitted_sendRPC (m : String) (p : Json) (w : World) :
    (sendRPC m p w).1.emitted
      = w.emitted ++ [{ id := .num w.client.requestId, method := some m,
                        params := some p }] := by
  unfold sendRPC
  rw [emitted_processWriteQueue]
  simp [World.emitted]

theorem sendRPC_requestId (m : String) (p : Json) (w : World) :
    (sendRPC m p w).1.client.requestId = w.client.requestId + 1 := by
  unfold sendRPC
  rw [processWriteQueue_requestId]

theorem sendRPC_snd (m : String) (p : Json) (w : World) :
    (sendRPC m p w).2 = none := rfl

theorem emitted_pushHistory (e : HistoryEntry) (w : World) :
    (pushHistory e w).emitted = w.emitted := rfl

theorem emitted_execTool (t : String) (p : Json) (w : World) :
    (execTool t p w).emitted = w.emitted := rfl

theorem emitted_persistSession (now : String) (w : World) :
    (persistSession now w).emitted = w.emitted := by
  unfold persistSession
  cases h : w.client.sessionId with
  | none => rfl
  | some sid => by_cases ha : w.client.autoSave <;> simp [ha, World.emitted]

theorem persistSession_history (now : String) (w : World) :
    (persistSession now w).client.history = w.client.history := by
  unfold persistSession
  cases h : w.client.sessionId with
  | none => rfl
  | some sid => by_cases ha : w.client.autoSave <;> simp [ha]

theorem persistSession_executed (now : String) (w : World) :
    (persistSession now w).executed = w.executed := by
  unfold persistSession
  cases h : w.client.sessionId with
  | none => rfl
  | some sid => by_cases ha : w.client.autoSave <;> simp [ha]

theorem persistSession_client (now : String) (w : World) :
    (persistSession now w).client = w.client := by
  unfold persistSession
  cases h : w.client.sessionId with
  | none => rfl
  | some sid => by_cases ha : w.client.autoSave <;> simp [ha]

theorem wqRun_sent_append_queue {α : Type} (tr : List (WQLabel α))
    (s0 s : WQState α) (h : wqRun tr s0 = some s) :
    s.sent ++ s.queue = s0.sent ++ s0.queue ++ enqueuedOf tr := by
  induction tr generalizing s0 with
  | nil =>
      simp only [wqRun, Option.some.injEq] at h
      subst h
      simp [enqueuedOf]
  | cons l rest ih =>
      cases l with
      | enqueue m =>
          simp only [wqRun, wqStep] at h
          have h2 := ih _ h
          simp only [enqueuedOf, List.filterMap_cons] at h2 ⊢
          rw [h2]
          simp
      | drainEnter =>
          by_cases hw : s0.isWriting
          · simp [wqRun, wqStep, hw] at h
          · simp only [wqRun, wqStep, hw, if_false, Bool.false_eq_true,
              ite_false] at h
            have h2 := ih _ h
            simpa [enqueuedOf] using h2
      | drainBusy =>
          by_cases hw : s0.isWriting
          · simp only [wqRun, wqStep, hw, ite_true] at h
            have h2 := ih _ h
            simpa [enqueuedOf] using h2
          · simp [wqRun, wqStep, hw] at h
      | drainWrite =>
          cases hq : s0.queue with
          | nil => simp [wqRun, wqStep, hq] at h
          | cons m rest2 =>
              by_cases hw : s0.isWriting
              · simp only [wqRun, wqStep, hq, hw, ite_true] at h
                have h2 := ih _ h
                simp only [enqueuedOf, List.filterMap_cons] at h2 ⊢
                rw [h2]
                simp
              · simp [wqRun, wqStep, hq, hw] at h
      | drainExit =>
          by_cases hw : s0.isWriting && s0.queue.isEmpty
          · simp only [wqRun, wqStep, hw, ite_true] at h
            have h2 := ih _ h
            simpa [enqueuedOf] using h2
          · simp [wqRun, wqStep, hw] at h

/-- Numeric ids handed out from a given counter value, in order. -/
def natsFrom (start : Nat) : Nat → List Nat
  | 0 => []
  | n + 1 => start :: natsFrom (start + 1) n

theorem natsFrom_lower (start n : Nat) :
    ∀ b ∈ natsFrom start n, start ≤ b := by
  induction n generalizing start with
  | zero => intro b hb; simp [natsFrom] at hb
  | succ n ih =>
      intro b hb
      simp only [natsFrom, List.mem_cons] at hb
      rcases hb with rfl | hb
      · exact Nat.le_refl b
      · exact Nat.le_of_succ_le (ih (start + 1) b hb)

theorem natsFrom_pairwise (start n : Nat) :
    List.Pairwise (fun a b => a < b) (natsFrom start n) := by
  induction n generalizing start with
  | zero => exact List.Pairwise.nil
  | succ n ih =>
      refine List.Pairwise.cons ?_ (ih (start + 1))
      intro b hb
      exact Nat.lt_of_succ_le (natsFrom_lower (start + 1) n b hb)

theorem natsFrom_nodup (start n : Nat) : (natsFrom start n).Nodup :=
  (natsFrom_pairwise start n).imp Nat.ne_of_lt

theorem runSendRPCs_map_id (calls : List (String × Json)) (w : World) :
    ((runSendRPCs calls w).emitted).map Msg.id
      = (w.emitted).map Msg.id
        ++ (natsFrom w.client.requestId calls.length).map RpcId.num := by
  induction calls generalizing w with
  | nil => simp [runSendRPCs, natsFrom]
  | cons c rest ih =>
      cases c with
      | mk m p =>
          simp only [runSendRPCs]
          rw [ih, emitted_sendRPC, sendRPC_requestId]
          simp [natsFrom]

/-!
## The claims -/

/-- C4: when the operator rejects a tool invocation, the engine emits
exactly one response for that request id, the JSON-RPC error with code
`-32000` and message `"User rejected tool call"`; no tool collaborator
is invoked; and the history gains only the `tool_call` receipt entry —
no `ToolResult` entry is appended. -/
theorem rejected_tool_call (env : ToolEnv) (toolName : String) (rid : RpcId)
    (params : Json) (now : String) (w : World) (h : env.approved = false) :
    (handleToolCall env toolName rid params now w).emitted
      = w.emitted
        ++ [responseMsg rid .null (some ⟨-32000, "User rejected tool call"⟩)]
    ∧ (handleToolCall env toolName rid params now w).executed = w.executed
    ∧ (handleToolCall env toolName rid params now w).client.history
      = w.client.history
        ++ [⟨.tool_call, toolCallData toolName params, now⟩] := by
  unfold handleToolCall
  simp only [h, Bool.not_false, if_true]
  refine ⟨?_, ?_, ?_⟩
  · rw [emitted_sendRPCResponse, emitted_pushHistory]
  · rw [sendRPCResponse_executed]
    rfl
  · rw [sendRPCResponse_history]
    rfl

/-- Witness for C4 at concrete inputs. -/
theorem rejected_tool_call_witness :
    (handleToolCall envDeny "writeTextFile" (.str "r1") (.obj []) "t" w0).emitted
      = w0.emitted
        ++ [responseMsg (.str "r1") .null
              (some ⟨-32000, "User rejected tool call"⟩)]
    ∧ (handleToolCall envDeny "writeTextFile" (.str "r1") (.obj []) "t" w0).executed
      = w0.executed
    ∧ (handleToolCall envDeny "writeTextFile" (.str "r1") (.obj []) "t" w0).client.history
      = w0.client.history
        ++ [⟨.tool_call, toolCallData "writeTextFile" (.obj []), "t"⟩] :=
  rejected_tool_call envDeny "writeTextFile" (.str "r1") (.obj []) "t" w0 rfl

/-- C10: on rejection, `handleToolCall` returns before the persist call,
so the durable store is untouched; the `tool_call` entry appended at
receipt lives only in the in-memory history. -/
theorem rejected_tool_call_not_persisted (env : ToolEnv) (toolName : String)
    (rid : RpcId) (params : Json) (now : String) (w : World)
    (h : env.approved = false) :
    (handleToolCall env toolName rid params now w).store = w.store
    ∧ (handleToolCall env toolName rid params now w).client.history
      = w.client.history
        ++ [⟨.tool_call, toolCallData toolName params, now⟩] := by
  unfold handleToolCall
  simp only [h, Bool.not_false, if_true]
  refine ⟨?_, ?_⟩
  · rw [sendRPCResponse_store]
    rfl
  · rw [sendRPCResponse_history]
    rfl

/-- Witness for C10 at concrete inputs. -/
theorem rejected_tool_call_not_persisted_witness :
    (handleToolCall envDeny "readTextFile" (.str "r2") (.obj []) "t2" w0).store
      = w0.store
    ∧ (handleToolCall envDeny "readTextFile" (.str "r2") (.obj []) "t2" w0).client.history
      = w0.client.history
        ++ [⟨.tool_call, toolCallData "readTextFile" (.obj []), "t2"⟩] :=
  rejected_tool_call_not_persisted envDeny "readTextFile" (.str "r2")
    (.obj []) "t2" w0 rfl

/-- C6: saving any session record under its id and loading by that id
yields the same record, all fields equal, the history sequence in the
same order. -/
theorem session_roundtrip (sid : String) (d : SessionData) (st : Store) :
    loadSession sid (saveSession sid d st) = some d :=
  load_after_save sid d st

/-- C9: resuming with an id that has no stored session returns `false`
and leaves the whole in-memory client state (session id, model,
workspace, history and all other fields) unchanged. -/
theorem resume_missing_id_no_mutation (sid : String) (w : World)
    (h : loadSession sid w.store = none) :
    resumeSession sid w = (false, w) := by
  simp [resumeSession, h]

/-- Witness for C9: resuming a missing id against the empty store. -/
theorem resume_missing_id_no_mutation_witness :
    resumeSession "missing" w0 = (false, w0) :=
  resume_missing_id_no_mutation "missing" w0 rfl

/-- C7: over the lifetime of a client, outbound request ids allocated by
`sendRPC` start at 0 and are handed out in strictly increasing order
with no id ever reused (the emitted id list is exactly `0, 1, ...`,
which is duplicate-free and pairwise increasing). -/
theorem request_ids_sequential (calls : List (String × Json))
    (m? : Option String) (cwd : String) (wd? : Option String) :
    ((runSendRPCs calls (freshWorld m? cwd wd?)).emitted).map Msg.id
        = (natsFrom 0 calls.length).map RpcId.num
    ∧ (((runSendRPCs calls (freshWorld m? cwd wd?)).emitted).map Msg.id).Nodup
    ∧ List.Pairwise (fun a b => a < b) (natsFrom 0 calls.length) := by
  have h1 := runSendRPCs_map_id calls (freshWorld m? cwd wd?)
  have h0 : ((freshWorld m? cwd wd?).emitted).map Msg.id = [] := rfl
  have hr : (freshWorld m? cwd wd?).client.requestId = 0 := rfl
  rw [h0, hr, List.nil_append] at h1
  refine ⟨h1, ?_, natsFrom_pairwise 0 calls.length⟩
  rw [h1]
  have hinj : Function.Injective RpcId.num := fun a b hab => RpcId.num.inj hab
  exact (natsFrom_nodup 0 calls.length).map hinj

/-- C5: for every interleaving of serializer events starting from the
initial state, the transport receives exactly the enqueued messages in
enqueue order with no duplication (`sent` followed by the still-queued
remainder is the enqueue order, so `sent` is always an in-order,
duplicate-free portion of it); moreover draining is exclusive: a
`processWriteQueue` call while `isWriting` is set (`drainBusy`) returns
immediately leaving the state — hence its messages to the ongoing
drain — and starting a second drain (`drainEnter`) is disabled while one
is running. -/
theorem wq_fifo_exclusive_drain {α : Type} (tr : List (WQLabel α))
    (s : WQState α) (q sn : List α) (h : wqRun tr wqInit = some s) :
    s.sent ++ s.queue = enqueuedOf tr
    ∧ wqStep .drainBusy { queue := q, isWriting := true, sent := sn }
        = some { queue := q, isWriting := true, sent := sn }
    ∧ wqStep (α := α) .drainEnter { queue := q, isWriting := true, sent := sn }
        = none := by
  refine ⟨?_, rfl, rfl⟩
  have h2 := wqRun_sent_append_queue tr wqInit s h
  simpa [wqInit] using h2

/-- Concrete serializer trace for the C5 witness: an enqueue, a drain
that begins, a concurrent enqueue and busy re-entry during the drain,
two writes, and the drain exit. -/
def trC5 : List (WQLabel Nat) :=
  [.enqueue 10, .drainEnter, .enqueue 20, .drainBusy, .drainWrite,
   .drainWrite, .drainExit]

/-- Final serializer state of the C5 witness trace. -/
def sC5 : WQState Nat := { queue := [], isWriting := false, sent := [10, 20] }

/-- Witness for C5 on the concrete trace `trC5`. -/
theorem wq_fifo_exclusive_drain_witness :
    sC5.sent ++ sC5.queue = enqueuedOf trC5
    ∧ wqStep .drainBusy { queue := [1], isWriting := true, sent := ([] : List Nat) }
        = some { queue := [1], isWriting := true, sent := [] }
    ∧ wqStep (α := Nat) .drainEnter { queue := [1], isWriting := true, sent := [] }
        = none :=
  wq_fifo_exclusive_drain trC5 sC5 [1] [] (by decide)

/-- C1: every path through `handleToolCall` — rejection, success of any
of the four tools, collaborator failure, or an unknown tool name — hands
exactly one outbound message to the serializer, a response (no `method`
field, a `result` or an `error`) carrying the inbound request's id. -/
theorem tool_call_exactly_one_response (env : ToolEnv) (toolName : String)
    (rid : RpcId) (params : Json) (now : String) (w : World) :
    ∃ r : Msg,
      (handleToolCall env toolName rid params now w).emitted = w.emitted ++ [r]
      ∧ r.id = rid ∧ r.method = none
      ∧ (r.result.isSome = true ∨ r.error.isSome = true) := by
  unfold handleToolCall
  cases happ : env.approved with
  | false =>
      simp only [happ, Bool.not_false, if_true]
      exact ⟨responseMsg rid .null (some ⟨-32000, "User rejected tool call"⟩),
        by rw [emitted_sendRPCResponse, emitted_pushHistory], rfl, rfl,
        Or.inr rfl⟩
  | true =>
      simp only [happ, Bool.not_true, if_false, Bool.false_eq_true, ite_false]
      rw [emitted_persistSession]
      unfold executeApprovedTool
      dsimp only
      by_cases h1 : toolName = "writeTextFile"
      · rw [if_pos h1]
        cases herr : (env.writeFile params).error with
        | some e =>
            exact ⟨responseMsg rid .null (some ⟨-32603, e⟩),
              by simp only [emitted_sendRPCResponse, emitted_execTool,
                   emitted_pushHistory], rfl, rfl, Or.inr rfl⟩
        | none =>
            exact ⟨responseMsg rid (.obj []) none,
              by simp only [emitted_sendRPCResponse, emitted_execTool,
                   emitted_pushHistory], rfl, rfl, Or.inl rfl⟩
      · rw [if_neg h1]
        by_cases h2 : toolName = "readTextFile"
        · rw [if_pos h2]
          cases herr : (env.readFile params).error with
          | some e =>
              exact ⟨responseMsg rid .null (some ⟨-32603, e⟩),
                by simp only [emitted_sendRPCResponse, emitted_execTool,
                     emitted_pushHistory], rfl, rfl, Or.inr rfl⟩
          | none =>
              exact ⟨responseMsg rid
                  (.obj [("content", jsonOfStr? (env.readFile params).content)])
                  none,
                by simp only [emitted_sendRPCResponse, emitted_execTool,
                     emitted_pushHistory], rfl, rfl, Or.inl rfl⟩
        · rw [if_neg h2]
          by_cases h3 : toolName = "listDirectory"
          · rw [if_pos h3]
            cases herr : (env.listDir params).error with
            | some e =>
                exact ⟨responseMsg rid .null (some ⟨-32603, e⟩),
                  by simp only [emitted_sendRPCResponse, emitted_execTool,
                       emitted_pushHistory], rfl, rfl, Or.inr rfl⟩
            | none =>
                exact ⟨responseMsg rid
                    (.obj [("entries",
                            jsonOfEntries? (env.listDir params).entries)])
                    none,
                  by simp only [emitted_sendRPCResponse, emitted_execTool,
                       emitted_pushHistory], rfl, rfl, Or.inl rfl⟩
          · rw [if_neg h3]
            by_cases h4 : toolName = "createTerminal"
            · rw [if_pos h4]
              exact ⟨responseMsg rid
                  (.obj [("id", .str "terminal-1"),
                         ("exitCode", jsonOfInt? (env.runShell params).exitCode),
                         ("stdout", jsonOfStr? (env.runShell params).stdout),
                         ("stderr", jsonOfStr? (env.runShell params).stderr)])
                  none,
                by simp only [emitted_sendRPCResponse, emitted_execTool,
                     emitted_pushHistory], rfl, rfl, Or.inl rfl⟩
            · rw [if_neg h4]
              exact ⟨responseMsg rid .null
                  (some ⟨-32603, "Unknown tool: " ++ toolName⟩),
                by simp only [emitted_sendRPCResponse, emitted_pushHistory],
                rfl, rfl, Or.inr rfl⟩

theorem route_write (env : ToolEnv) (m : String) (rid : RpcId)
    (p? : Option Json) (now : String) (w : World)
    (h : matchesTool m TOOL_METHODS_WRITE_FILE = true) :
    handleMessage env { id := rid, method := some m, params := p? } now w
      = handleToolCall env "writeTextFile" rid (p?.getD (.obj [])) now w := by
  simp [handleMessage, h]

theorem route_read (env : ToolEnv) (m : String) (rid : RpcId)
    (p? : Option Json) (now : String) (w : World)
    (h : matchesTool m TOOL_METHODS_READ_FILE = true) :
    handleMessage env { id := rid, method := some m, params := p? } now w
      = handleToolCall env "readTextFile" rid (p?.getD (.obj [])) now w := by
  have hm : m = "readTextFile" ∨ m = "fs/readTextFile" ∨ m = "fs.readTextFile" := by
    simpa [matchesTool, TOOL_METHODS_READ_FILE] using h
  rcases hm with rfl | rfl | rfl <;> rfl

theorem route_list (env : ToolEnv) (m : String) (rid : RpcId)
    (p? : Option Json) (now : String) (w : World)
    (h : matchesTool m TOOL_METHODS_LIST_DIRECTORY = true) :
    handleMessage env { id := rid, method := some m, params := p? } now w
      = handleToolCall env "listDirectory" rid (p?.getD (.obj [])) now w := by
  have hm : m = "listDirectory" ∨ m = "fs/listDirectory" ∨ m = "fs.listDirectory" := by
    simpa [matchesTool, TOOL_METHODS_LIST_DIRECTORY] using h
  rcases hm with rfl | rfl | rfl <;> rfl

theorem route_terminal (env : ToolEnv) (m : String) (rid : RpcId)
    (p? : Option Json) (now : String) (w : World)
    (h : matchesTool m TOOL_METHODS_CREATE_TERMINAL = true) :
    handleMessage env { id := rid, method := some m, params := p? } now w
      = handleToolCall env "createTerminal" rid (p?.getD (.obj [])) now w := by
  have hm : m = "createTerminal" ∨ m = "terminal/create" ∨ m = "terminal.create" := by
    simpa [matchesTool, TOOL_METHODS_CREATE_TERMINAL] using h
  rcases hm with rfl | rfl | rfl <;> rfl

/-- C8: any two spellings of the same tool-method family — write file,
read file, list directory, create terminal — route an inbound request
with the same id and params through the identical handler and yield the
identical resulting world (same responses, history, store, executions). -/
theorem method_alias_same_handling (env : ToolEnv) (m1 m2 : String)
    (rid : RpcId) (p? : Option Json) (now : String) (w : World)
    (h : (matchesTool m1 TOOL_METHODS_WRITE_FILE = true
            ∧ matchesTool m2 TOOL_METHODS_WRITE_FILE = true)
       ∨ (matchesTool m1 TOOL_METHODS_READ_FILE = true
            ∧ matchesTool m2 TOOL_METHODS_READ_FILE = true)
       ∨ (matchesTool m1 TOOL_METHODS_LIST_DIRECTORY = true
            ∧ matchesTool m2 TOOL_METHODS_LIST_DIRECTORY = true)
       ∨ (matchesTool m1 TOOL_METHODS_CREATE_TERMINAL = true
            ∧ matchesTool m2 TOOL_METHODS_CREATE_TERMINAL = true)) :
    handleMessage env { id := rid, method := some m1, params := p? } now w
      = handleMessage env { id := rid, method := some m2, params := p? } now w := by
  rcases h with ⟨h1, h2⟩ | ⟨h1, h2⟩ | ⟨h1, h2⟩ | ⟨h1, h2⟩
  · rw [route_write env m1 rid p? now w h1, route_write env m2 rid p? now w h2]
  · rw [route_read env m1 rid p? now w h1, route_read env m2 rid p? now w h2]
  · rw [route_list env m1 rid p? now w h1, route_list env m2 rid p? now w h2]
  · rw [route_terminal env m1 rid p? now w h1,
        route_terminal env m2 rid p? now w h2]

/-- Witness for C8: the three write-file spellings agree pairwise on a
concrete request. -/
theorem method_alias_same_handling_witness :
    handleMessage envApproveOk
        { id := .str "w1", method := some "writeTextFile",
          params := some (.obj []) } "t" w0
      = handleMessage envApproveOk
          { id := .str "w1", method := some "fs.writeTextFile",
            params := some (.obj []) } "t" w0 :=
  method_alias_same_handling envApproveOk "writeTextFile" "fs.writeTextFile"
    (.str "w1") (some (.obj [])) "t" w0 (Or.inl ⟨by decide, by decide⟩)

theorem processWriteQueue_autoSave (w : World) :
    (processWriteQueue w).client.autoSave = w.client.autoSave := by
  by_cases h : w.client.isWriting <;> simp [processWriteQueue, h]

theorem sendRPC_sessionId (m : String) (p : Json) (w : World) :
    (sendRPC m p w).1.client.sessionId = w.client.sessionId := by
  unfold sendRPC
  rw [processWriteQueue_sessionId]

theorem sendRPC_autoSave (m : String) (p : Json) (w : World) :
    (sendRPC m p w).1.client.autoSave = w.client.autoSave := by
  unfold sendRPC
  rw [processWriteQueue_autoSave]

theorem sendRPC_history (m : String) (p : Json) (w : World) :
    (sendRPC m p w).1.client.history = w.client.history := by
  unfold sendRPC
  rw [processWriteQueue_history]

theorem sendRPCResponse_sessionId (rid : RpcId) (res : Json)
    (err : Option RpcError) (w : World) :
    (sendRPCResponse rid res err w).client.sessionId = w.client.sessionId := by
  unfold sendRPCResponse
  rw [processWriteQueue_sessionId]

theorem sendRPCResponse_autoSave (rid : RpcId) (res : Json)
    (err : Option RpcError) (w : World) :
    (sendRPCResponse rid res err w).client.autoSave = w.client.autoSave := by
  unfold sendRPCResponse
  rw [processWriteQueue_autoSave]

theorem persistSession_store_of (now : String) (w : World) (sid : String)
    (hsid : w.client.sessionId = some sid)
    (hauto : w.client.autoSave = true) :
    (persistSession now w).store
      = saveSession sid
          ⟨sid, w.client.model, w.client.workspaceDir, now,
           w.client.history⟩ w.store := by
  unfold persistSession
  rw [hsid]
  simp [hauto]

/-- The world after the C3 run: one prompt from a fresh client with
`Date.now()` = 42, then the server's `session/new` response
`{sessionId:"s1"}` arriving on the inbound stream. -/
def c3Final : World :=
  handleMessage envApproveOk
    { id := .num 0, result := some (.obj [("sessionId", .str "s1")]) } "t2"
    (sendPrompt "hello" "t1" 42 w0)

/-- Counterexample to C3 as stated: in a run where the server answers
the `session/new` round-trip with `sessionId:"s1"`, the engine's adopted
session id is the locally generated `session-42`, not the server's
value. -/
theorem c3_adopted_id_not_from_server :
    c3Final.client.sessionId = some "session-42"
    ∧ ("session-42" : String) ≠ "s1" := by
  refine ⟨rfl, by decide⟩

/-- C3 amended: with no existing session, `sendPrompt` does perform the
`session/new` round-trip first (the `session/new` request is emitted
before the `session/prompt` request), but the session id it adopts is
always the local fallback `session-${Date.now()}` because `sendRPC`
resolves to `null` and inbound responses are only logged. -/
theorem sendPrompt_new_session (msg now : String) (nowMs : Nat) (w : World)
    (h : w.client.sessionId = none) :
    (sendPrompt msg now nowMs w).client.sessionId
      = some ("session-" ++ toString nowMs)
    ∧ (sendPrompt msg now nowMs w).emitted
      = w.emitted
        ++ [{ id := .num w.client.requestId, method := some "session/new",
              params := some (.obj []) },
            { id := .num (w.client.requestId + 1),
              method := some "session/prompt",
              params := some (promptParams msg) }] := by
  unfold sendPrompt
  rw [h]
  dsimp only
  constructor
  · rw [persistSession_client, sendRPC_sessionId]
    rfl
  · rw [emitted_persistSession, emitted_sendRPC]
    show ((sendRPC "session/new" (.obj []) w).1).emitted
        ++ [{ id := .num ((sendRPC "session/new" (.obj []) w).1.client.requestId),
              method := some "session/prompt",
              params := some (promptParams msg) }]
      = _
    rw [emitted_sendRPC, sendRPC_requestId]
    simp

theorem sendPrompt_fresh_client (msg now : String) (nowMs : Nat) (w : World)
    (h : w.client.sessionId = none) :
    (sendPrompt msg now nowMs w).client.sessionId
        = some ("session-" ++ toString nowMs)
    ∧ (sendPrompt msg now nowMs w).client.autoSave = w.client.autoSave
    ∧ (sendPrompt msg now nowMs w).client.history
        = w.client.history ++ [⟨.prompt, .str msg, now⟩] := by
  unfold sendPrompt
  rw [h]
  dsimp only
  refine ⟨?_, ?_, ?_⟩
  · rw [persistSession_client, sendRPC_sessionId]
    rfl
  · rw [persistSession_client, sendRPC_autoSave]
    exact sendRPC_autoSave "session/new" (.obj []) w
  · rw [persistSession_client, sendRPC_history]
    show (sendRPC "session/new" (.obj []) w).1.client.history
        ++ [⟨.prompt, .str msg, now⟩] = _
    rw [sendRPC_history]

theorem handleToolCall_write_ok_load (env : ToolEnv) (rid : RpcId)
    (params : Json) (now : String) (w : World) (sid : String)
    (happ : env.approved = true)
    (hok : (env.writeFile params).error = none)
    (hsid : w.client.sessionId = some sid)
    (hauto : w.client.autoSave = true) :
    (loadSession sid
        (handleToolCall env "writeTextFile" rid params now w).store).map
      (fun d => d.history.map HistoryEntry.type)
      = some ((w.client.history.map HistoryEntry.type)
              ++ [.tool_call, .tool_result]) := by
  unfold handleToolCall
  simp only [happ, Bool.not_true, if_false, Bool.false_eq_true, ite_false]
  unfold executeApprovedTool
  dsimp only
  rw [if_pos rfl, hok]
  rw [persistSession_store_of now _ sid
        (by rw [sendRPCResponse_sessionId]; exact hsid)
        (by rw [sendRPCResponse_autoSave]; exact hauto)]
  rw [load_after_save]
  rw [sendRPCResponse_history]
  simp [pushHistory, execTool, List.map_append]

/-- Witness for the amended C3 on a concrete fresh world. -/
theorem sendPrompt_new_session_witness :
    (sendPrompt "hi" "t" 7 w0).client.sessionId
      = some ("session-" ++ toString 7)
    ∧ (sendPrompt "hi" "t" 7 w0).emitted
      = w0.emitted
        ++ [{ id := .num w0.client.requestId, method := some "session/new",
              params := some (.obj []) },
            { id := .num (w0.client.requestId + 1),
              method := some "session/prompt",
              params := some (promptParams "hi") }] :=
  sendPrompt_new_session "hi" "t" 7 w0 rfl

/-- Counterexample to C2 as stated: in the one-prompt, one approved and
successful `writeTextFile` scenario, the persisted session holds three
history entries — `prompt`, `tool_call`, `tool_result` — not two, since
`handleToolCall` appends the `tool_call` receipt entry before the
approval wait. -/
theorem c2_persisted_history_is_three :
    (loadSession "session-42" scenarioFinal.store).map
        (fun d => d.history.map HistoryEntry.type)
      = some [.prompt, .tool_call, .tool_result]
    ∧ ¬ ((loadSession "session-42" scenarioFinal.store).map
          (fun d => d.history.length) = some 2) := by
  constructor
  · rfl
  · intro hcontra
    have h3 : (loadSession "session-42" scenarioFinal.store).map
        (fun d => d.history.length) = some 3 := rfl
    rw [h3] at hcontra
    exact absurd (Option.some.inj hcontra) (by decide)

/-- C2 amended: after one prompt from a fresh client followed by one
approved, successful `writeTextFile` tool call, the persisted session
contains exactly three history entries, in order `Prompt`, `ToolCall`,
`ToolResult` — the `ToolCall` receipt entry being the one appended
before the approval wait. -/
theorem prompt_then_approved_write_history (env : ToolEnv)
    (m? : Option String) (cwd : String) (wd? : Option String)
    (msg now1 now2 : String) (nowMs : Nat) (rid : RpcId) (params : Json)
    (happ : env.approved = true)
    (hok : (env.writeFile params).error = none) :
    (loadSession ("session-" ++ toString nowMs)
        (handleMessage env
          { id := rid, method := some "writeTextFile", params := some params }
          now2 (sendPrompt msg now1 nowMs (freshWorld m? cwd wd?))).store).map
      (fun d => d.history.map HistoryEntry.type)
      = some [.prompt, .tool_call, .tool_result] := by
  rw [route_write env "writeTextFile" rid (some params) now2 _ (by decide)]
  simp only [Option.getD_some]
  obtain ⟨hsid, hauto, hhist⟩ :=
    sendPrompt_fresh_client msg now1 nowMs (freshWorld m? cwd wd?) rfl
  rw [handleToolCall_write_ok_load env rid params now2 _ _ happ hok hsid
        (by rw [hauto]; rfl)]
  rw [hhist]
  simp [freshWorld, mkClient]

/-- Witness for the amended C2 on the concrete scenario inputs. -/
theorem prompt_then_approved_write_history_witness :
    (loadSession ("session-" ++ toString 42)
        (handleMessage envApproveOk
          { id := .str "req-1", method := some "writeTextFile",
            params := some (.obj [("path", .str "a.txt"),
                                  ("content", .str "hi")]) }
          "t2" (sendPrompt "hello" "t1" 42 (freshWorld none "/ws" none))).store).map
      (fun d => d.history.map HistoryEntry.type)
      = some [.prompt, .tool_call, .tool_result] :=
  prompt_then_approved_write_history envApproveOk none "/ws" none
    "hello" "t1" "t2" 42 (.str "req-1")
    (.obj [("path", .str "a.txt"), ("content", .str "hi")]) rfl rfl

end ACP
